import Mathlib

/-!
Verification of the request/response transformation pipeline of the
`rust_proxy` reverse proxy (`src/main.rs`).

The embedding models:
- header collections as ordered lists of (name, raw byte value) pairs, with
  ASCII-case-insensitive name comparison (actix/http `HeaderName` compares
  case-insensitively; values are raw byte sequences, `HeaderValue`);
- `build_proxy_request` (main.rs lines 190-222): URL parse, header copy loop
  skipping host / content-length / transfer-encoding, body attachment;
- `proxy_handler` (main.rs lines 225-284): target URL composition from the
  verbatim inbound `req.uri().path_and_query()`, request build, send,
  response header copy via `HttpResponseBuilder::insert_header` (which
  replaces previously set values of the same name), body read
  (`response.bytes()`, whose failure is mapped with
  `.map_err(ProxyError::RequestError)`), and the `String::from_utf8` check;
- the `ProxyError` enum and its `error_response` rendering (status code and
  JSON object fields).

External effects (URL parser, HTTP send, body read) are passed in as explicit
`Except` values or functions, so the pipeline is a pure function of its
inputs and of those outcomes.

A routing note used below: in actix-web, `web::scope(prefix)` only selects
which requests reach the handler; `HttpRequest::uri()` still yields the
original request URI, so the path the handler sees (and forwards) includes
the scope prefix.
-/

namespace RustProxy

/-- Target server section of the configuration (`TargetConfig` in main.rs). -/
structure TargetConfig where
  host : String
  port : Nat
  protocol : String
  deriving DecidableEq

/-- The part of `AppConfig` that the request pipeline reads. -/
structure AppConfig where
  target : TargetConfig
  deriving DecidableEq

/-- A header entry as it appears on the wire: a name (case-insensitive) and a
raw byte value. -/
structure Header where
  name : String
  value : List Nat
  deriving DecidableEq

/-- The `ProxyError` enum of main.rs (lines 117-135), with each variant
carrying the text it renders. -/
inductive ProxyError where
  | RequestBuilderError : String → ProxyError
  | RequestError : String → ProxyError
  | ResponseReadError : String → ProxyError
  | InvalidHeader : String → ProxyError
  | ResponseBodyConversionError : ProxyError
  | ConfigError : String → ProxyError
  deriving DecidableEq

/-- The JSON object rendered by `error_response`: an `error` field and an
optional `details` field. -/
structure ErrorBody where
  error : String
  details : Option String
  deriving DecidableEq

/-- A client-visible error response: HTTP status plus JSON body. -/
structure ErrorResponse where
  status : Nat
  body : ErrorBody
  deriving DecidableEq

/-- The `thiserror` `Display` messages of `ProxyError` (the `#[error(...)]`
templates at main.rs lines 118-134). -/
def displayMessage : ProxyError → String
  | ProxyError.RequestBuilderError m => "请求构建失败: " ++ m
  | ProxyError.RequestError m => "代理请求失败: " ++ m
  | ProxyError.ResponseReadError m => "读取响应体错误: " ++ m
  | ProxyError.InvalidHeader n => "无效的请求头: " ++ n
  | ProxyError.ResponseBodyConversionError => "响应体转换错误"
  | ProxyError.ConfigError m => "配置错误: " ++ m

/-- `impl ResponseError for ProxyError` (main.rs lines 138-185): status code
and JSON payload for each variant. Only `ResponseBodyConversionError` omits
the `details` field. -/
def error_response : ProxyError → ErrorResponse
  | ProxyError.RequestBuilderError m =>
      ⟨400, ⟨"请求构建失败", some (displayMessage (ProxyError.RequestBuilderError m))⟩⟩
  | ProxyError.RequestError m =>
      ⟨500, ⟨"代理请求失败", some (displayMessage (ProxyError.RequestError m))⟩⟩
  | ProxyError.ResponseReadError m =>
      ⟨500, ⟨"读取响应体错误", some (displayMessage (ProxyError.ResponseReadError m))⟩⟩
  | ProxyError.InvalidHeader n =>
      ⟨400, ⟨"无效的请求头", some (displayMessage (ProxyError.InvalidHeader n))⟩⟩
  | ProxyError.ResponseBodyConversionError =>
      ⟨500, ⟨"响应体转换错误", none⟩⟩
  | ProxyError.ConfigError m =>
      ⟨500, ⟨"配置错误", some (displayMessage (ProxyError.ConfigError m))⟩⟩

/-- ASCII lowercase of one character. -/
def lowerChar (c : Char) : Char :=
  if 65 ≤ c.toNat && c.toNat ≤ 90 then Char.ofNat (c.toNat + 32) else c

/-- ASCII lowercase of a header name. -/
def lowerName (s : String) : String :=
  String.mk (s.data.map lowerChar)

/-- ASCII-case-insensitive header-name equality, as performed by
`HeaderName == &str` in the http crate. -/
def nameEq (a b : String) : Bool :=
  decide (lowerName a = lowerName b)

/-- The three request headers skipped by the copy loop in
`build_proxy_request` (main.rs line 206). -/
def isSkippedRequestHeader (k : String) : Bool :=
  nameEq k "host" || nameEq k "content-length" || nameEq k "transfer-encoding"

/-- The two response headers skipped by the response copy loop in
`proxy_handler` (main.rs line 262). -/
def isSkippedResponseHeader (k : String) : Bool :=
  nameEq k "content-length" || nameEq k "transfer-encoding"

/-- `HeaderValue::to_str` succeeds exactly on visible-ASCII bytes (and tab). -/
def isVisibleAscii (b : Nat) : Bool :=
  (32 ≤ b && b < 127) || b == 9

/-- `HeaderValue::to_str` (used at main.rs lines 208-210): yields the value as
a string when every byte is visible ASCII, and fails otherwise. -/
def headerValueToStr (v : List Nat) : Option String :=
  if v.all isVisibleAscii then some (String.mk (v.map (fun b => Char.ofNat b))) else none

/-- The bytes of a decoded header value string. -/
def strBytes (s : String) : List Nat :=
  s.data.map (fun c => c.toNat)

/-- The header copy loop of `build_proxy_request` (main.rs lines 204-213):
skip host / content-length / transfer-encoding, decode every other value with
`to_str` (failing with `InvalidHeader` on the first undecodable one), and
append the pair to the outbound request in order. -/
def copy_request_headers : List Header → Except ProxyError (List (String × String))
  | [] => Except.ok []
  | h :: t =>
    if isSkippedRequestHeader h.name then
      copy_request_headers t
    else
      match headerValueToStr h.value with
      | none => Except.error (ProxyError.InvalidHeader h.name)
      | some s =>
        match copy_request_headers t with
        | Except.error e => Except.error e
        | Except.ok l => Except.ok ((h.name, s) :: l)

/-- The outbound request assembled by `build_proxy_request`. -/
structure OutboundRequest where
  method : String
  url : String
  headers : List (String × String)
  body : Option (List Nat)
  deriving DecidableEq

/-- `build_proxy_request` (main.rs lines 190-222). The URL parser
(`reqwest::Url::parse`) is an external collaborator, passed in as a function;
its failure becomes `RequestBuilderError` with the parser message. A
non-empty body is attached; an empty body is not. -/
def build_proxy_request (parseUrl : String → Except String Unit) (method : String)
    (headers : List Header) (body : List Nat) (backendUrl : String) :
    Except ProxyError OutboundRequest :=
  match parseUrl backendUrl with
  | Except.error parse_err => Except.error (ProxyError.RequestBuilderError parse_err)
  | Except.ok _ =>
    match copy_request_headers headers with
    | Except.error e => Except.error e
    | Except.ok hs =>
      Except.ok { method := method, url := backendUrl, headers := hs,
                  body := if body.isEmpty then none else some body }

/-- The target URL composition of `proxy_handler` (main.rs lines 232-241):
`format!("{}://{}:{}{}", protocol, host, port,
req.uri().path_and_query().map(|pq| pq.as_str()).unwrap_or(""))`. -/
def backend_url (config : AppConfig) (pathAndQuery : Option String) : String :=
  config.target.protocol ++ "://" ++ config.target.host ++ ":" ++
    toString config.target.port ++ (Option.getD (Option.map (fun pq => pq) pathAndQuery) "")

/-- Spec-side definition, written from the spec text only (§3 invariant):
target URL = `{targetProtocol}://{targetHost}:{targetPort}{inboundPathAndQuery}`,
where `inboundPathAndQuery` defaults to the empty string when absent. -/
def target_url_spec (config : AppConfig) (inboundPathAndQuery : Option String) : String :=
  config.target.protocol ++ "://" ++ config.target.host ++ ":" ++
    toString config.target.port ++
    (match inboundPathAndQuery with
     | some p => p
     | none => "")

/-- `HttpResponseBuilder::insert_header` semantics: remove every previously
set value with an equivalent (case-insensitive) field name, then set the new
value. -/
def insertHeader (hs : List Header) (h : Header) : List Header :=
  hs.filter (fun x => !(nameEq x.name h.name)) ++ [h]

/-- The response header copy loop of `proxy_handler` (main.rs lines 260-265):
for each upstream header that is not content-length / transfer-encoding,
`insert_header` it onto the client response builder. -/
def copyResponseHeaders (upstream : List Header) : List Header :=
  upstream.foldl
    (fun acc h => if isSkippedResponseHeader h.name then acc else insertHeader acc h) []

/-- Whether a byte is a UTF-8 continuation byte (0x80-0xBF). -/
def isUtf8Cont (b : Nat) : Bool :=
  128 ≤ b && b ≤ 191

/-- UTF-8 validity of a byte sequence (RFC 3629, as checked by Rust
`String::from_utf8`): rejects overlong encodings, surrogates and code points
above U+10FFFF. -/
def utf8Valid : List Nat → Bool
  | [] => true
  | b :: rest =>
    if b < 128 then utf8Valid rest
    else if 194 ≤ b && b ≤ 223 then
      match rest with
      | c1 :: r => isUtf8Cont c1 && utf8Valid r
      | [] => false
    else if b == 224 then
      match rest with
      | c1 :: c2 :: r => (160 ≤ c1 && c1 ≤ 191) && isUtf8Cont c2 && utf8Valid r
      | _ => false
    else if (225 ≤ b && b ≤ 236) || b == 238 || b == 239 then
      match rest with
      | c1 :: c2 :: r => isUtf8Cont c1 && isUtf8Cont c2 && utf8Valid r
      | _ => false
    else if b == 237 then
      match rest with
      | c1 :: c2 :: r => (128 ≤ c1 && c1 ≤ 159) && isUtf8Cont c2 && utf8Valid r
      | _ => false
    else if b == 240 then
      match rest with
      | c1 :: c2 :: c3 :: r =>
        (144 ≤ c1 && c1 ≤ 191) && isUtf8Cont c2 && isUtf8Cont c3 && utf8Valid r
      | _ => false
    else if 241 ≤ b && b ≤ 243 then
      match rest with
      | c1 :: c2 :: c3 :: r =>
        isUtf8Cont c1 && isUtf8Cont c2 && isUtf8Cont c3 && utf8Valid r
      | _ => false
    else if b == 244 then
      match rest with
      | c1 :: c2 :: c3 :: r =>
        (128 ≤ c1 && c1 ≤ 143) && isUtf8Cont c2 && isUtf8Cont c3 && utf8Valid r
      | _ => false
    else false

/-- The upstream response as seen by the handler: status, headers, and the
outcome of draining the body (`response.bytes()`). -/
structure UpstreamResponse where
  status : Nat
  headers : List Header
  bytesResult : Except String (List Nat)

/-- The successful response relayed to the original caller. -/
structure ClientResponse where
  status : Nat
  headers : List Header
  body : List Nat
  deriving DecidableEq

/-- `proxy_handler` (main.rs lines 225-284). External outcomes are explicit:
`parseUrl` is the URL parser used inside `build_proxy_request`, and
`sendResult` is the outcome of `proxy_req.send()` (with the body-drain
outcome nested inside the upstream response). Transport failures propagate
via `From<reqwest::Error>` as `RequestError`; a body-read failure is mapped
at line 268 with `.map_err(ProxyError::RequestError)`; a non-UTF-8 body
becomes `ResponseBodyConversionError` (lines 276-283). -/
def proxy_handler (parseUrl : String → Except String Unit) (config : AppConfig)
    (method : String) (pathAndQuery : Option String) (headers : List Header)
    (body : List Nat) (sendResult : Except String UpstreamResponse) :
    Except ProxyError ClientResponse :=
  match build_proxy_request parseUrl method headers body (backend_url config pathAndQuery) with
  | Except.error e => Except.error e
  | Except.ok _proxyReq =>
    match sendResult with
    | Except.error send_err => Except.error (ProxyError.RequestError send_err)
    | Except.ok response =>
      match response.bytesResult with
      | Except.error read_err => Except.error (ProxyError.RequestError read_err)
      | Except.ok bytes =>
        if utf8Valid bytes then
          Except.ok { status := response.status,
                      headers := copyResponseHeaders response.headers,
                      body := bytes }
        else
          Except.error ProxyError.ResponseBodyConversionError

/-- Whether control reaches `proxy_req.send()` (main.rs line 253): it does
exactly when `build_proxy_request` succeeded. -/
def reaches_send (parseUrl : String → Except String Unit) (config : AppConfig)
    (method : String) (pathAndQuery : Option String) (headers : List Header)
    (body : List Nat) : Bool :=
  match build_proxy_request parseUrl method headers body (backend_url config pathAndQuery) with
  | Except.ok _ => true
  | Except.error _ => false

/-- The values carried by headers named (case-insensitively) `n`, in order. -/
def valuesOf (n : String) (hs : List Header) : List (List Nat) :=
  (hs.filter (fun h => nameEq h.name n)).map (fun h => h.value)

/-- The last value carried by a header named (case-insensitively) `n`, if
any. -/
def lastValueOf (n : String) : List Header → Option (List Nat)
  | [] => none
  | h :: t =>
    match lastValueOf n t with
    | some v => some v
    | none => if nameEq h.name n then some h.value else none

/-! ### Helper lemmas -/

theorem toNat_ofNat_lt (b : Nat) (hb : b < 55296) : (Char.ofNat b).toNat = b := by
  rw [Char.ofNat, dif_pos (Or.inl hb)]
  rfl

theorem map_ofNat_toNat (v : List Nat) (hv : v.all isVisibleAscii = true) :
    (v.map (fun b => Char.ofNat b)).map (fun c => c.toNat) = v := by
  induction v with
  | nil => rfl
  | cons b t ih =>
    rw [List.all_cons, Bool.and_eq_true] at hv
    have hb : b < 55296 := by
      have h1 := hv.1
      simp [isVisibleAscii] at h1
      omega
    simp only [List.map_cons, ih hv.2, toNat_ofNat_lt b hb]

theorem strBytes_mk (l : List Char) : strBytes (String.mk l) = l.map (fun c => c.toNat) := rfl

theorem headerValueToStr_some (v : List Nat) (s : String) (h : headerValueToStr v = some s) :
    v.all isVisibleAscii = true ∧ strBytes s = v := by
  unfold headerValueToStr at h
  split at h
  · next hall =>
    refine ⟨hall, ?_⟩
    injection h with h2
    rw [← h2, strBytes_mk, map_ofNat_toNat v hall]
  · exact absurd h (by simp)

theorem copy_request_headers_ok : ∀ hs : List Header,
    (∀ h ∈ hs, isSkippedRequestHeader h.name = false → (headerValueToStr h.value).isSome = true) →
    ∃ l, copy_request_headers hs = Except.ok l ∧
      l.map (fun p => (p.1, strBytes p.2)) =
        (hs.filter (fun h => !isSkippedRequestHeader h.name)).map (fun h => (h.name, h.value)) := by
  intro hs
  induction hs with
  | nil => exact fun _ => ⟨[], rfl, rfl⟩
  | cons h t ih =>
    intro H
    obtain ⟨l, hl, hmap⟩ := ih (fun h2 hm hsk => H h2 (List.mem_cons_of_mem _ hm) hsk)
    cases hskip : isSkippedRequestHeader h.name with
    | true =>
      refine ⟨l, ?_, ?_⟩
      · simp [copy_request_headers, hskip, hl]
      · simp [List.filter_cons, hskip, hmap]
    | false =>
      have hsome := H h (List.mem_cons_self h t) hskip
      obtain ⟨s, hs_eq⟩ := Option.isSome_iff_exists.mp hsome
      obtain ⟨hall, hsb⟩ := headerValueToStr_some _ _ hs_eq
      refine ⟨(h.name, s) :: l, ?_, ?_⟩
      · simp [copy_request_headers, hskip, hs_eq, hl]
      · simp [List.filter_cons, hskip, List.map_cons, hmap, hsb]

theorem nameEq_true_iff (a b : String) : nameEq a b = true ↔ lowerName a = lowerName b := by
  simp [nameEq]

theorem skippedResponse_of_nameEq {a b : String} (h : nameEq a b = true) :
    isSkippedResponseHeader a = isSkippedResponseHeader b := by
  rw [nameEq_true_iff] at h
  simp [isSkippedResponseHeader, nameEq, h]

theorem valuesOf_cons (n : String) (x : Header) (t : List Header) :
    valuesOf n (x :: t) =
      (if nameEq x.name n then x.value :: valuesOf n t else valuesOf n t) := by
  simp only [valuesOf, List.filter_cons]
  split <;> simp

theorem valuesOf_append (n : String) (l1 l2 : List Header) :
    valuesOf n (l1 ++ l2) = valuesOf n l1 ++ valuesOf n l2 := by
  simp [valuesOf, List.filter_append]

theorem valuesOf_filter_ne (n m : String) (hne : nameEq m n = false) (acc : List Header) :
    valuesOf n (acc.filter (fun x => !(nameEq x.name m))) = valuesOf n acc := by
  induction acc with
  | nil => rfl
  | cons x t ih =>
    cases hxm : nameEq x.name m with
    | true =>
      have hxn : nameEq x.name n = false := by
        cases hxn2 : nameEq x.name n with
        | false => rfl
        | true =>
          exfalso
          rw [nameEq_true_iff] at hxm hxn2
          have : nameEq m n = true := by rw [nameEq_true_iff, ← hxm, hxn2]
          rw [this] at hne
          exact Bool.true_eq_false.mp hne
      simp [List.filter_cons, hxm, ih, valuesOf_cons, hxn]
    | false =>
      simp [List.filter_cons, hxm, valuesOf_cons, ih]

theorem valuesOf_filter_self (n m : String) (hm : nameEq m n = true) (acc : List Header) :
    valuesOf n (acc.filter (fun x => !(nameEq x.name m))) = [] := by
  induction acc with
  | nil => rfl
  | cons x t ih =>
    cases hxm : nameEq x.name m with
    | true => simp [List.filter_cons, hxm, ih]
    | false =>
      have hxn : nameEq x.name n = false := by
        cases hxn2 : nameEq x.name n with
        | false => rfl
        | true =>
          exfalso
          rw [nameEq_true_iff] at hxn2 hm
          have : nameEq x.name m = true := by rw [nameEq_true_iff, hxn2, hm]
          rw [this] at hxm
          exact Bool.true_eq_false.mp hxm
      simp [List.filter_cons, hxm, valuesOf_cons, hxn, ih]

theorem valuesOf_copyLoop (n : String) (hn : isSkippedResponseHeader n = false) :
    ∀ (hs acc : List Header),
      valuesOf n (hs.foldl
          (fun acc h => if isSkippedResponseHeader h.name then acc else insertHeader acc h) acc) =
        (match lastValueOf n hs with
         | some v => [v]
         | none => valuesOf n acc) := by
  intro hs
  induction hs with
  | nil => intro acc; rfl
  | cons h t ih =>
    intro acc
    rw [List.foldl_cons, ih]
    cases hlast : lastValueOf n t with
    | some v => simp [lastValueOf, hlast]
    | none =>
      cases hhn : nameEq h.name n with
      | true =>
        have hskip : isSkippedResponseHeader h.name = false := by
          rw [skippedResponse_of_nameEq hhn]; exact hn
        simp only [lastValueOf, hlast, hhn, hskip, if_true, if_false, Bool.false_eq_true,
          ite_false, ite_true]
        rw [insertHeader, valuesOf_append, valuesOf_filter_self n h.name hhn]
        simp [valuesOf_cons, hhn, valuesOf]
      | false =>
        cases hskip : isSkippedResponseHeader h.name with
        | true => simp [lastValueOf, hlast, hhn, hskip]
        | false =>
          simp only [lastValueOf, hlast, hhn, hskip, Bool.false_eq_true, ite_false]
          rw [insertHeader, valuesOf_append, valuesOf_filter_ne n h.name hhn]
          simp [valuesOf_cons, hhn, valuesOf]

theorem valuesOf_copyLoop_skipped (n : String) (hn : isSkippedResponseHeader n = true) :
    ∀ (hs acc : List Header),
      valuesOf n (hs.foldl
          (fun acc h => if isSkippedResponseHeader h.name then acc else insertHeader acc h) acc) =
        valuesOf n acc := by
  intro hs
  induction hs with
  | nil => intro acc; rfl
  | cons h t ih =>
    intro acc
    rw [List.foldl_cons, ih]
    cases hskip : isSkippedResponseHeader h.name with
    | true => simp [hskip]
    | false =>
      have hhn : nameEq h.name n = false := by
        cases hhn2 : nameEq h.name n with
        | false => rfl
        | true =>
          exfalso
          rw [skippedResponse_of_nameEq hhn2, hn] at hskip
          exact Bool.true_eq_false.mp hskip
      simp only [hskip, Bool.false_eq_true, ite_false]
      rw [insertHeader, valuesOf_append, valuesOf_filter_ne n h.name hhn]
      simp [valuesOf_cons, hhn, valuesOf]

/-! ### Claim theorems -/

/-- C1: for every configuration and every inbound path-and-query (absent or
present), the target URL composed by the handler equals the spec-side
concatenation `{targetProtocol}://{targetHost}:{targetPort}` followed by the
inbound path-and-query verbatim, defaulting to the empty string when
absent. -/
theorem c1_target_url (config : AppConfig) (pq : Option String) :
    backend_url config pq = target_url_spec config pq := by
  cases pq <;> rfl

/-- C2: whenever every non-skipped inbound header value is decodable, the
header copy succeeds and the outbound header sequence is exactly the inbound
sequence with the case-insensitive names host, content-length and
transfer-encoding removed; every other name/value pair is kept unmodified
(byte-for-byte), with duplicates and order preserved. -/
theorem c2_request_headers (hs : List Header)
    (H : ∀ h ∈ hs, isSkippedRequestHeader h.name = false →
      (headerValueToStr h.value).isSome = true) :
    ∃ l, copy_request_headers hs = Except.ok l ∧
      l.map (fun p => (p.1, strBytes p.2)) =
        (hs.filter (fun h => !isSkippedRequestHeader h.name)).map (fun h => (h.name, h.value)) :=
  copy_request_headers_ok hs H

/-- C3: when the pipeline reaches a successfully read upstream body that is
not valid UTF-8, the whole upstream response (any status code) is discarded:
the handler fails with ResponseBodyConversionError, rendered as status 500
with a JSON body whose error field is the category and which has no details
field. -/
theorem c3_non_utf8_body (parseUrl : String → Except String Unit) (config : AppConfig)
    (m : String) (pq : Option String) (ihs : List Header) (cs : List (String × String))
    (b : List Nat) (resp : UpstreamResponse) (bytes : List Nat)
    (hp : parseUrl (backend_url config pq) = Except.ok ())
    (hc : copy_request_headers ihs = Except.ok cs)
    (hb : resp.bytesResult = Except.ok bytes)
    (hu : utf8Valid bytes = false) :
    proxy_handler parseUrl config m pq ihs b (Except.ok resp) =
      Except.error ProxyError.ResponseBodyConversionError ∧
    error_response ProxyError.ResponseBodyConversionError =
      ⟨500, ⟨"响应体转换错误", none⟩⟩ := by
  refine ⟨?_, rfl⟩
  simp [proxy_handler, build_proxy_request, hp, hc, hb, hu]

/-- C4 counterexample: the claim fails on duplicate upstream header names.
With two upstream set-cookie headers, `insert_header` keeps only the last
one, so the pair (set-cookie, a) is in the upstream set minus the framing
headers but not in the outbound set. -/
theorem c4_counterexample :
    copyResponseHeaders [⟨"set-cookie", [97]⟩, ⟨"set-cookie", [98]⟩] =
      [⟨"set-cookie", [98]⟩] ∧
    Header.mk "set-cookie" [97] ∈
      ([⟨"set-cookie", [97]⟩, ⟨"set-cookie", [98]⟩] : List Header).filter
        (fun h => !isSkippedResponseHeader h.name) ∧
    Header.mk "set-cookie" [97] ∉
      copyResponseHeaders [⟨"set-cookie", [97]⟩, ⟨"set-cookie", [98]⟩] := by
  refine ⟨rfl, ?_, ?_⟩ <;> decide

/-- C4 (amended): the outbound status equals the upstream status exactly, and
the outbound headers are the upstream headers minus content-length and
transfer-encoding, except that when a (case-insensitive) name occurs several
times upstream only its last value is kept, because the response builder uses
insert (replace) semantics. -/
theorem c4_response_headers (parseUrl : String → Except String Unit) (config : AppConfig)
    (m : String) (pq : Option String) (ihs : List Header) (cs : List (String × String))
    (b : List Nat) (resp : UpstreamResponse) (bytes : List Nat)
    (hp : parseUrl (backend_url config pq) = Except.ok ())
    (hc : copy_request_headers ihs = Except.ok cs)
    (hb : resp.bytesResult = Except.ok bytes)
    (hu : utf8Valid bytes = true) :
    proxy_handler parseUrl config m pq ihs b (Except.ok resp) =
      Except.ok ⟨resp.status, copyResponseHeaders resp.headers, bytes⟩ ∧
    (∀ n, isSkippedResponseHeader n = false →
      valuesOf n (copyResponseHeaders resp.headers) =
        Option.toList (lastValueOf n resp.headers)) ∧
    (∀ n, isSkippedResponseHeader n = true →
      valuesOf n (copyResponseHeaders resp.headers) = []) := by
  refine ⟨?_, ?_, ?_⟩
  · simp [proxy_handler, build_proxy_request, hp, hc, hb, hu]
  · intro n hn
    rw [copyResponseHeaders, valuesOf_copyLoop n hn resp.headers []]
    cases lastValueOf n resp.headers <;> rfl
  · intro n hn
    rw [copyResponseHeaders, valuesOf_copyLoop_skipped n hn resp.headers []]
    rfl

/-- C5 counterexample: for target http://backend:9000 and an inbound request
whose full path (as received under the prefix /api) is /api/users?id=5, the
composed target URL keeps the prefix: it is
http://backend:9000/api/users?id=5, not the prefix-stripped
http://backend:9000/users?id=5 the claim demands. -/
theorem c5_counterexample :
    backend_url ⟨⟨"backend", 9000, "http"⟩⟩ (some ("/api" ++ "/users?id=5")) =
      "http://backend:9000/api/users?id=5" ∧
    backend_url ⟨⟨"backend", 9000, "http"⟩⟩ (some ("/api" ++ "/users?id=5")) ≠
      "http://backend:9000/users?id=5" := by
  refine ⟨rfl, ?_⟩
  decide

/-- C5 (amended): the path prefix is NOT stripped. The handler composes the
upstream URL from the verbatim inbound path-and-query, so for a request whose
path is the prefix followed by a remainder, the whole prefix-plus-remainder
is forwarded to the upstream. -/
theorem c5_prefix_forwarded (config : AppConfig) (pfx rest : String) :
    backend_url config (some (pfx ++ rest)) =
      config.target.protocol ++ "://" ++ config.target.host ++ ":" ++
        toString config.target.port ++ (pfx ++ rest) := rfl

/-- C6 counterexample: at a concrete request whose upstream body read fails
with message boom, the handler fails with RequestError (rendered 500 under
the RequestError category), not with the ResponseReadError variant the claim
names. -/
theorem c6_counterexample :
    proxy_handler (fun _ => Except.ok ()) ⟨⟨"backend", 9000, "http"⟩⟩ "GET" none [] []
        (Except.ok ⟨200, [], Except.error "boom"⟩) =
      Except.error (ProxyError.RequestError "boom") ∧
    ¬ ∃ msg, proxy_handler (fun _ => Except.ok ()) ⟨⟨"backend", 9000, "http"⟩⟩ "GET" none [] []
        (Except.ok ⟨200, [], Except.error "boom"⟩) =
      Except.error (ProxyError.ResponseReadError msg) := by
  refine ⟨rfl, ?_⟩
  rintro ⟨msg, hm⟩
  have h1 : Except.error (ProxyError.RequestError "boom") =
      (Except.error (ProxyError.ResponseReadError msg) : Except ProxyError ClientResponse) := hm
  injection h1 with h2
  exact ProxyError.noConfusion h2

/-- C6 (amended): a failure while reading the upstream body surfaces as the
RequestError variant (the code maps it with map_err(ProxyError::RequestError)
at main.rs line 268); the client still receives status 500, but under the
RequestError JSON category, and the ResponseReadError variant is never
produced. -/
theorem c6_body_read_failure (parseUrl : String → Except String Unit) (config : AppConfig)
    (m : String) (pq : Option String) (ihs : List Header) (cs : List (String × String))
    (b : List Nat) (resp : UpstreamResponse) (e : String)
    (hp : parseUrl (backend_url config pq) = Except.ok ())
    (hc : copy_request_headers ihs = Except.ok cs)
    (hb : resp.bytesResult = Except.error e) :
    proxy_handler parseUrl config m pq ihs b (Except.ok resp) =
      Except.error (ProxyError.RequestError e) ∧
    (error_response (ProxyError.RequestError e)).status = 500 ∧
    (error_response (ProxyError.RequestError e)).body.error = "代理请求失败" := by
  refine ⟨?_, rfl, rfl⟩
  simp [proxy_handler, build_proxy_request, hp, hc, hb]

/-- C7: if the inbound headers contain a non-skipped header with an
undecodable value (and every earlier non-skipped value is decodable, so it is
the offending one), the copy loop and the whole request build fail with
InvalidHeader carrying that header's name, and the client-visible rendering
is status 400 with a JSON error body. -/
theorem c7_invalid_header (pre : List Header) (h : Header) (post : List Header)
    (Hpre : ∀ h2 ∈ pre, isSkippedRequestHeader h2.name = false →
      (headerValueToStr h2.value).isSome = true)
    (hskip : isSkippedRequestHeader h.name = false)
    (hval : headerValueToStr h.value = none) :
    copy_request_headers (pre ++ h :: post) =
      Except.error (ProxyError.InvalidHeader h.name) ∧
    (∀ parseUrl m b url, parseUrl url = Except.ok () →
      build_proxy_request parseUrl m (pre ++ h :: post) b url =
        Except.error (ProxyError.InvalidHeader h.name)) ∧
    error_response (ProxyError.InvalidHeader h.name) =
      ⟨400, ⟨"无效的请求头", some ("无效的请求头: " ++ h.name)⟩⟩ := by
  have hcopy : copy_request_headers (pre ++ h :: post) =
      Except.error (ProxyError.InvalidHeader h.name) := by
    induction pre with
    | nil => simp [copy_request_headers, hskip, hval]
    | cons p t ih =>
      have hp_rest := fun h2 hm hsk => Hpre h2 (List.mem_cons_of_mem _ hm) hsk
      have hrec := ih hp_rest
      cases hps : isSkippedRequestHeader p.name with
      | true => simpa [copy_request_headers, hps] using hrec
      | false =>
        have hsome := Hpre p (List.mem_cons_self p t) hps
        obtain ⟨s, hs_eq⟩ := Option.isSome_iff_exists.mp hsome
        simp [copy_request_headers, hps, hs_eq, hrec]
  refine ⟨hcopy, ?_, rfl⟩
  intro parseUrl m b url hpu
  simp [build_proxy_request, hpu, hcopy]

/-- C8: whenever the URL parser rejects the composed target URL, the whole
pipeline fails with RequestBuilderError carrying the parser's message no
matter what the outbound send would have returned, control never reaches the
send call, and the rendering is status 400 with the parser message in the
details field. -/
theorem c8_url_parse_failure (parseUrl : String → Except String Unit) (config : AppConfig)
    (m : String) (pq : Option String) (ihs : List Header) (b : List Nat) (e : String)
    (hp : parseUrl (backend_url config pq) = Except.error e) :
    (∀ sendResult, proxy_handler parseUrl config m pq ihs b sendResult =
      Except.error (ProxyError.RequestBuilderError e)) ∧
    reaches_send parseUrl config m pq ihs b = false ∧
    error_response (ProxyError.RequestBuilderError e) =
      ⟨400, ⟨"请求构建失败", some ("请求构建失败: " ++ e)⟩⟩ := by
  refine ⟨?_, ?_, rfl⟩
  · intro sendResult
    simp [proxy_handler, build_proxy_request, hp]
  · simp [reaches_send, build_proxy_request, hp]

/-- C9: when the pipeline reaches a successfully read upstream body of bytes
that are valid UTF-8, the response relayed to the caller carries exactly
those bytes, byte-for-byte (together with the upstream status and the
filtered headers). -/
theorem c9_utf8_body_roundtrip (parseUrl : String → Except String Unit) (config : AppConfig)
    (m : String) (pq : Option String) (ihs : List Header) (cs : List (String × String))
    (b : List Nat) (resp : UpstreamResponse) (bytes : List Nat)
    (hp : parseUrl (backend_url config pq) = Except.ok ())
    (hc : copy_request_headers ihs = Except.ok cs)
    (hb : resp.bytesResult = Except.ok bytes)
    (hu : utf8Valid bytes = true) :
    proxy_handler parseUrl config m pq ihs b (Except.ok resp) =
      Except.ok ⟨resp.status, copyResponseHeaders resp.headers, bytes⟩ := by
  simp [proxy_handler, build_proxy_request, hp, hc, hb, hu]

/-- C10: the skip test runs before any value decoding, so a non-text value on
a (case-insensitively) host / content-length / transfer-encoding header never
produces InvalidHeader: as long as every non-skipped value is decodable, the
header copy succeeds. -/
theorem c10_skipped_headers_not_decoded (hs : List Header)
    (H : ∀ h ∈ hs, isSkippedRequestHeader h.name = false →
      (headerValueToStr h.value).isSome = true) :
    (∃ l, copy_request_headers hs = Except.ok l) ∧
    ∀ n, copy_request_headers hs ≠ Except.error (ProxyError.InvalidHeader n) := by
  obtain ⟨l, hl, _⟩ := copy_request_headers_ok hs H
  refine ⟨⟨l, hl⟩, ?_⟩
  intro n hcontra
  rw [hl] at hcontra
  exact Except.noConfusion hcontra

/-! ### Witnesses -/

/-- Witness for C2 at a concrete header list containing a host header with an
undecodable value, a content-type header and a duplicated custom header. -/
theorem c2_request_headers_witness :
    ∃ l, copy_request_headers
        [⟨"Host", [0]⟩, ⟨"Content-Type", [116]⟩, ⟨"X-Tag", [97]⟩, ⟨"X-Tag", [98]⟩] =
      Except.ok l ∧
      l.map (fun p => (p.1, strBytes p.2)) =
        (([⟨"Host", [0]⟩, ⟨"Content-Type", [116]⟩, ⟨"X-Tag", [97]⟩,
            ⟨"X-Tag", [98]⟩] : List Header).filter
          (fun h => !isSkippedRequestHeader h.name)).map (fun h => (h.name, h.value)) :=
  c2_request_headers
    [⟨"Host", [0]⟩, ⟨"Content-Type", [116]⟩, ⟨"X-Tag", [97]⟩, ⟨"X-Tag", [98]⟩] (by decide)

/-- Witness for C3 at a concrete upstream 200 response whose body is the
single byte 255, which is not valid UTF-8. -/
theorem c3_non_utf8_body_witness :
    proxy_handler (fun _ => Except.ok ()) ⟨⟨"backend", 9000, "http"⟩⟩ "GET" (some "/img") [] []
        (Except.ok ⟨200, [], Except.ok [255]⟩) =
      Except.error ProxyError.ResponseBodyConversionError ∧
    error_response ProxyError.ResponseBodyConversionError =
      ⟨500, ⟨"响应体转换错误", none⟩⟩ :=
  c3_non_utf8_body (fun _ => Except.ok ()) ⟨⟨"backend", 9000, "http"⟩⟩ "GET" (some "/img") [] []
    [] ⟨200, [], Except.ok [255]⟩ [255] rfl rfl rfl rfl

/-- Witness for the amended C4 at a concrete upstream 404 response carrying a
content-length header and a duplicated set-cookie header. -/
theorem c4_response_headers_witness :
    proxy_handler (fun _ => Except.ok ()) ⟨⟨"backend", 9000, "http"⟩⟩ "GET" (some "/c") [] []
        (Except.ok ⟨404, [⟨"Content-Length", [49]⟩, ⟨"Set-Cookie", [97]⟩, ⟨"set-cookie", [98]⟩],
          Except.ok [111]⟩) =
      Except.ok ⟨404,
        copyResponseHeaders [⟨"Content-Length", [49]⟩, ⟨"Set-Cookie", [97]⟩, ⟨"set-cookie", [98]⟩],
        [111]⟩ ∧
    valuesOf "set-cookie" (copyResponseHeaders
        [⟨"Content-Length", [49]⟩, ⟨"Set-Cookie", [97]⟩, ⟨"set-cookie", [98]⟩]) = [[98]] ∧
    valuesOf "Content-Length" (copyResponseHeaders
        [⟨"Content-Length", [49]⟩, ⟨"Set-Cookie", [97]⟩, ⟨"set-cookie", [98]⟩]) = [] := by
  have h := c4_response_headers (fun _ => Except.ok ()) ⟨⟨"backend", 9000, "http"⟩⟩ "GET"
    (some "/c") [] [] []
    ⟨404, [⟨"Content-Length", [49]⟩, ⟨"Set-Cookie", [97]⟩, ⟨"set-cookie", [98]⟩], Except.ok [111]⟩
    [111] rfl rfl rfl rfl
  exact ⟨h.1, (h.2.1 "set-cookie" (by decide)).trans (by decide),
    h.2.2 "Content-Length" (by decide)⟩

/-- Witness for the amended C6 at a concrete request whose upstream body read
fails with the message peer reset. -/
theorem c6_body_read_failure_witness :
    proxy_handler (fun _ => Except.ok ()) ⟨⟨"backend", 9000, "http"⟩⟩ "GET" (some "/r") [] []
        (Except.ok ⟨200, [], Except.error "peer reset"⟩) =
      Except.error (ProxyError.RequestError "peer reset") ∧
    (error_response (ProxyError.RequestError "peer reset")).status = 500 ∧
    (error_response (ProxyError.RequestError "peer reset")).body.error = "代理请求失败" :=
  c6_body_read_failure (fun _ => Except.ok ()) ⟨⟨"backend", 9000, "http"⟩⟩ "GET" (some "/r") [] []
    [] ⟨200, [], Except.error "peer reset"⟩ "peer reset" rfl rfl rfl

/-- Witness for C7 at a concrete header list whose second header X-Bin
carries the undecodable byte 0. -/
theorem c7_invalid_header_witness :
    copy_request_headers [⟨"Accept", [42]⟩, ⟨"X-Bin", [0]⟩, ⟨"X-Tail", [122]⟩] =
      Except.error (ProxyError.InvalidHeader "X-Bin") ∧
    error_response (ProxyError.InvalidHeader "X-Bin") =
      ⟨400, ⟨"无效的请求头", some ("无效的请求头: " ++ "X-Bin")⟩⟩ := by
  have h := c7_invalid_header [⟨"Accept", [42]⟩] ⟨"X-Bin", [0]⟩ [⟨"X-Tail", [122]⟩]
    (by decide) (by decide) (by decide)
  exact ⟨h.1, h.2.2⟩

/-- Witness for C8 with a parser that rejects every URL (as for an empty
target host): the handler fails with RequestBuilderError and the send stage
is never reached. -/
theorem c8_url_parse_failure_witness :
    proxy_handler (fun _ => Except.error "empty host") ⟨⟨"", 9000, "http"⟩⟩ "GET" (some "/x") [] []
        (Except.ok ⟨200, [], Except.ok []⟩) =
      Except.error (ProxyError.RequestBuilderError "empty host") ∧
    reaches_send (fun _ => Except.error "empty host") ⟨⟨"", 9000, "http"⟩⟩ "GET" (some "/x") [] [] =
      false := by
  have h := c8_url_parse_failure (fun _ => Except.error "empty host") ⟨⟨"", 9000, "http"⟩⟩ "GET"
    (some "/x") [] [] "empty host" rfl
  exact ⟨h.1 (Except.ok ⟨200, [], Except.ok []⟩), h.2.1⟩

/-- Witness for C9 at a concrete upstream 404 response with the two-byte
UTF-8 body hi. -/
theorem c9_utf8_body_roundtrip_witness :
    proxy_handler (fun _ => Except.ok ()) ⟨⟨"backend", 9000, "http"⟩⟩ "GET" (some "/users?id=5")
        [] [] (Except.ok ⟨404, [⟨"x", [120]⟩], Except.ok [104, 105]⟩) =
      Except.ok ⟨404, copyResponseHeaders [⟨"x", [120]⟩], [104, 105]⟩ :=
  c9_utf8_body_roundtrip (fun _ => Except.ok ()) ⟨⟨"backend", 9000, "http"⟩⟩ "GET"
    (some "/users?id=5") [] [] [] ⟨404, [⟨"x", [120]⟩], Except.ok [104, 105]⟩ [104, 105]
    rfl rfl rfl rfl

/-- Witness for C10 at a concrete header list whose host and
transfer-encoding headers carry undecodable bytes while the only other
header is decodable. -/
theorem c10_skipped_headers_not_decoded_witness :
    (∃ l, copy_request_headers
        [⟨"Host", [0]⟩, ⟨"Transfer-Encoding", [200]⟩, ⟨"X-Ok", [111]⟩] = Except.ok l) ∧
    copy_request_headers [⟨"Host", [0]⟩, ⟨"Transfer-Encoding", [200]⟩, ⟨"X-Ok", [111]⟩] ≠
      Except.error (ProxyError.InvalidHeader "host") := by
  have h := c10_skipped_headers_not_decoded
    [⟨"Host", [0]⟩, ⟨"Transfer-Encoding", [200]⟩, ⟨"X-Ok", [111]⟩] (by decide)
  exact ⟨h.1, h.2 "host"⟩

end RustProxy
